import Mathlib

/-!
Verification development for the in-circuit KZG opening-proof verifier
(`std/commitments/kzg/verifier.go`).

The file shallowly embeds the Go source:
* Go structs become Lean structures, keeping the source field names.
* The Go generic functions, which dispatch at runtime on the concrete type
  parametrization (`sw_bn254` vs `sw_bls12377` vs anything else), become
  functions over an explicit `Family` index whose third constructor stands
  for every other type parametrization.
* Go `any` values offered to the conversion functions become the sum type
  `NativeAny`, whose `otherVal` constructor stands for every dynamic type
  other than the six the source inspects.
* `fmt.Errorf` results become the structured error type `ConvErr`
  (`mismatchingTypes` carries the two `%T` type names; the string constants
  used for them abbreviate Go's fully qualified type names).
* The injected `algebra.Curve` and `algebra.Pairing` capabilities become
  records of functions, so `AssertProof` stays parametric in them exactly as
  the Go method is.

Encodings owned by packages outside the verified source (`sw_bn254`,
`sw_bls12377`, `gnark-crypto`) are modelled from the spec; each such
definition carries a doc comment starting `Modelled from the spec:`.
-/

set_option autoImplicit false

namespace Kzg

/-! ### Native (non-circuit) values, from `gnark-crypto`

Modelled from the spec: the native types live in `gnark-crypto`, outside the
verified source.  Only their identity (which concrete Go type a dynamic value
carries) and their constituent field elements matter here; field elements are
modelled as natural numbers. -/

/-- Native bn254 G1 affine point (`bn254.G1Affine`): two base-field coordinates. -/
structure BN254G1Affine where
  X : Nat
  Y : Nat
deriving DecidableEq

/-- Native bls12-377 G1 affine point (`bls12377.G1Affine`). -/
structure BLS377G1Affine where
  X : Nat
  Y : Nat
deriving DecidableEq

/-- Native bn254 G2 affine point (`bn254.G2Affine`): coordinates in Fp², each a
pair of base-field elements. -/
structure BN254G2Affine where
  X0 : Nat
  X1 : Nat
  Y0 : Nat
  Y1 : Nat
deriving DecidableEq

/-- Native bls12-377 G2 affine point (`bls12377.G2Affine`). -/
structure BLS377G2Affine where
  X0 : Nat
  X1 : Nat
  Y0 : Nat
  Y1 : Nat
deriving DecidableEq

/-- Native bn254 KZG opening proof (`kzg_bn254.OpeningProof`): the quotient
commitment `H` and the claimed value (an `fr_bn254.Element`). -/
structure KzgBN254OpeningProof where
  H : BN254G1Affine
  ClaimedValue : Nat
deriving DecidableEq

/-- Native bls12-377 KZG opening proof (`kzg_bls12377.OpeningProof`). -/
structure KzgBLS377OpeningProof where
  H : BLS377G1Affine
  ClaimedValue : Nat
deriving DecidableEq

/-- Native bn254 verifying key: the fragment of `kzg_bn254.SRS.Vk` the source
reads, namely the two-element G2 array `Vk.G2`. -/
structure BN254VerifyingKey where
  G2 : BN254G2Affine × BN254G2Affine
deriving DecidableEq

/-- Native bn254 SRS (`kzg_bn254.SRS`, passed by pointer). -/
structure KzgBN254SRS where
  Vk : BN254VerifyingKey
deriving DecidableEq

/-- Native bls12-377 verifying key fragment. -/
structure BLS377VerifyingKey where
  G2 : BLS377G2Affine × BLS377G2Affine
deriving DecidableEq

/-- Native bls12-377 SRS (`kzg_bls12377.SRS`, passed by pointer). -/
structure KzgBLS377SRS where
  Vk : BLS377VerifyingKey
deriving DecidableEq

/-- A Go `any` value offered to one of the conversion functions.  One
constructor per concrete type the source's type assertions inspect; the
`otherVal` constructor stands for a value of any other dynamic type, carrying
that type's name (what Go's `%T` would print for it). -/
inductive NativeAny where
  | bn254G1 (p : BN254G1Affine)
  | bls377G1 (p : BLS377G1Affine)
  | bn254Fr (x : Nat)
  | bls377Fr (x : Nat)
  | bn254Proof (p : KzgBN254OpeningProof)
  | bls377Proof (p : KzgBLS377OpeningProof)
  | bn254SRS (s : KzgBN254SRS)
  | bls377SRS (s : KzgBLS377SRS)
  | otherVal (tyName : String)
deriving DecidableEq

/-- The dynamic type name of a Go `any` value, as `fmt.Errorf`'s `%T` verb
reports it (abbreviated package qualifiers). -/
def NativeAny.typeName : NativeAny → String
  | .bn254G1 _ => "bn254.G1Affine"
  | .bls377G1 _ => "bls12377.G1Affine"
  | .bn254Fr _ => "fr_bn254.Element"
  | .bls377Fr _ => "fr_bls12377.Element"
  | .bn254Proof _ => "kzg_bn254.OpeningProof"
  | .bls377Proof _ => "kzg_bls12377.OpeningProof"
  | .bn254SRS _ => "*kzg_bn254.SRS"
  | .bls377SRS _ => "*kzg_bls12377.SRS"
  | .otherVal t => t

/-- Whether the dynamic value is a native bn254 G1 point. -/
def NativeAny.isBN254G1 : NativeAny → Bool
  | .bn254G1 _ => true
  | _ => false

/-- Whether the dynamic value is a native bls12-377 G1 point. -/
def NativeAny.isBLS377G1 : NativeAny → Bool
  | .bls377G1 _ => true
  | _ => false

/-- Whether the dynamic value is a native bn254 scalar (`fr_bn254.Element`). -/
def NativeAny.isBN254Fr : NativeAny → Bool
  | .bn254Fr _ => true
  | _ => false

/-- Whether the dynamic value is a native bls12-377 scalar. -/
def NativeAny.isBLS377Fr : NativeAny → Bool
  | .bls377Fr _ => true
  | _ => false

/-- Whether the dynamic value is a native bn254 opening proof. -/
def NativeAny.isBN254Proof : NativeAny → Bool
  | .bn254Proof _ => true
  | _ => false

/-- Whether the dynamic value is a native bls12-377 opening proof. -/
def NativeAny.isBLS377Proof : NativeAny → Bool
  | .bls377Proof _ => true
  | _ => false

/-- Whether the dynamic value is a (pointer to a) native bn254 SRS. -/
def NativeAny.isBN254SRS : NativeAny → Bool
  | .bn254SRS _ => true
  | _ => false

/-- Whether the dynamic value is a (pointer to a) native bls12-377 SRS. -/
def NativeAny.isBLS377SRS : NativeAny → Bool
  | .bls377SRS _ => true
  | _ => false

/-! ### Witness encodings

The bn254 family is represented with nonnative (emulated) arithmetic: every
field element becomes a vector of limbs.  The bls12-377 family is native to
the circuit field: elements become plain `frontend.Variable`s. -/

/-- Modelled from the spec: the nonnative/limb-based encoding splits a native
big-integer value into fixed-width limbs (spec §4.1 step 3 and the glossary
entry for emulated arithmetic); gnark's emulated bn254 parameters use 4 limbs
of 64 bits.  `toLimbs n x` is the list of the `n` base-2⁶⁴ digits of `x`,
least significant first. -/
def toLimbs : Nat → Nat → List Nat
  | 0, _ => []
  | n + 1, x => x % 2 ^ 64 :: toLimbs n (x / 2 ^ 64)

/-- An emulated (nonnative) field element witness: its limb vector.  The Go
zero value of `emulated.Element` has a nil limb slice, modelled as `[]`. -/
structure EmulatedElement where
  limbs : List Nat
deriving DecidableEq

/-- Modelled from the spec: `emulated.ValueOf` for the bn254 parameters —
the structured nonnative/limb-based encoding of a native field element. -/
def emulatedValueOf (x : Nat) : EmulatedElement :=
  ⟨toLimbs 4 x⟩

/-- A `frontend.Variable` witness for the native (bls12-377) family: either a
native-field value, a literal decimal string, or the Go zero value `nil`. -/
inductive FrontendVariable where
  | ofNat (x : Nat)
  | ofString (s : String)
  | nilVar
deriving DecidableEq

/-- Circuit bn254 G1 point (`sw_bn254.G1Affine`): emulated coordinates. -/
structure SwBN254G1Affine where
  X : EmulatedElement
  Y : EmulatedElement
deriving DecidableEq

/-- Circuit bn254 G2 point (`sw_bn254.G2Affine`): emulated Fp² coordinates. -/
structure SwBN254G2Affine where
  X0 : EmulatedElement
  X1 : EmulatedElement
  Y0 : EmulatedElement
  Y1 : EmulatedElement
deriving DecidableEq

/-- Circuit bls12-377 G1 point (`sw_bls12377.G1Affine`): two variables. -/
structure SwBLS377G1Affine where
  X : FrontendVariable
  Y : FrontendVariable
deriving DecidableEq

/-- Circuit bls12-377 G2 point (`sw_bls12377.G2Affine`). -/
structure SwBLS377G2Affine where
  X0 : FrontendVariable
  X1 : FrontendVariable
  Y0 : FrontendVariable
  Y1 : FrontendVariable
deriving DecidableEq

/-- Modelled from the spec: `sw_bn254.NewG1Affine` encodes each native
coordinate with the nonnative/limb-based encoding. -/
def swBN254NewG1Affine (p : BN254G1Affine) : SwBN254G1Affine :=
  ⟨emulatedValueOf p.X, emulatedValueOf p.Y⟩

/-- Modelled from the spec: `sw_bn254.NewG2Affine` encodes each native Fp²
coordinate component with the nonnative/limb-based encoding. -/
def swBN254NewG2Affine (p : BN254G2Affine) : SwBN254G2Affine :=
  ⟨emulatedValueOf p.X0, emulatedValueOf p.X1, emulatedValueOf p.Y0,
    emulatedValueOf p.Y1⟩

/-- Modelled from the spec: `sw_bn254.NewScalar` is the nonnative/limb-based
encoding of a native `fr_bn254.Element`. -/
def swBN254NewScalar (x : Nat) : EmulatedElement :=
  emulatedValueOf x

/-- Modelled from the spec: `sw_bls12377.NewG1Affine` uses the direct
native-field representation for each coordinate. -/
def swBLS377NewG1Affine (p : BLS377G1Affine) : SwBLS377G1Affine :=
  ⟨.ofNat p.X, .ofNat p.Y⟩

/-- Modelled from the spec: `sw_bls12377.NewG2Affine` uses the direct
native-field representation for each Fp² coordinate component. -/
def swBLS377NewG2Affine (p : BLS377G2Affine) : SwBLS377G2Affine :=
  ⟨.ofNat p.X0, .ofNat p.X1, .ofNat p.Y0, .ofNat p.Y1⟩

/-- The decimal rendering `fr.Element.String()` of a native bls12-377 scalar
(the source assigns it directly to the `frontend.Variable` scalar witness). -/
def frString (x : Nat) : String :=
  Nat.repr x

/-! ### Family index and witness types -/

/-- The concrete type parametrization a Go generic conversion function was
instantiated at.  `bn254` is the `sw_bn254` (emulated) family, `bls12377` the
`sw_bls12377` (native) family, and `other t` stands for any of the infinitely
many remaining parametrizations (the `default` branch of the source's type
switches). -/
inductive Family where
  | bn254
  | bls12377
  | other (tag : Nat)
deriving DecidableEq

/-- The G1 element witness type of a family (`G1El` type parameter).  For an
unknown parametrization the concrete type is irrelevant; `Unit` stands in. -/
def G1ElType : Family → Type
  | .bn254 => SwBN254G1Affine
  | .bls12377 => SwBLS377G1Affine
  | .other _ => Unit

/-- The scalar witness type of a family (`S` type parameter):
`sw_bn254.Scalar` is an emulated element, `sw_bls12377.Scalar` is a
`frontend.Variable`. -/
def ScalarType : Family → Type
  | .bn254 => EmulatedElement
  | .bls12377 => FrontendVariable
  | .other _ => Unit

/-- The G2 element witness type of a family (`G2El` type parameter). -/
def G2ElType : Family → Type
  | .bn254 => SwBN254G2Affine
  | .bls12377 => SwBLS377G2Affine
  | .other _ => Unit

/-- The Go zero value of a family's G1 witness type (`var ret ...` before any
assignment): nil limb slices for the emulated family, nil variables for the
native one. -/
def zeroG1El : (fam : Family) → G1ElType fam
  | .bn254 => ⟨⟨[]⟩, ⟨[]⟩⟩
  | .bls12377 => ⟨.nilVar, .nilVar⟩
  | .other _ => ()

/-- The Go zero value of a family's scalar witness type. -/
def zeroScalar : (fam : Family) → ScalarType fam
  | .bn254 => ⟨[]⟩
  | .bls12377 => .nilVar
  | .other _ => ()

/-- The Go zero value of a family's G2 witness type. -/
def zeroG2El : (fam : Family) → G2ElType fam
  | .bn254 => ⟨⟨[]⟩, ⟨[]⟩, ⟨[]⟩, ⟨[]⟩⟩
  | .bls12377 => ⟨.nilVar, .nilVar, .nilVar, .nilVar⟩
  | .other _ => ()

/-- A KZG commitment witness (`Commitment[G1El]`): one G1 element. -/
structure Commitment (G1El : Type) where
  G1El : G1El
deriving DecidableEq

/-- A KZG opening proof witness (`OpeningProof[S, G1El]`): the quotient
commitment and the two scalars. -/
structure OpeningProof (S G1El : Type) where
  QuotientPoly : G1El
  ClaimedValue : S
  Point : S
deriving DecidableEq

/-- The SRS witness (`SRS[G2El]`): the Go two-element array `SRS [2]G2El`,
modelled as a pair (`.1` is `SRS[0]`, `.2` is `SRS[1]`). -/
structure SRS (G2El : Type) where
  SRS : G2El × G2El
deriving DecidableEq

/-- The Go zero value of a family's `OpeningProof` witness. -/
def zeroOpeningProofW (fam : Family) : OpeningProof (ScalarType fam) (G1ElType fam) :=
  ⟨zeroG1El fam, zeroScalar fam, zeroScalar fam⟩

/-- The Go zero value of a family's `SRS` witness. -/
def zeroSRSW (fam : Family) : SRS (G2ElType fam) :=
  ⟨zeroG2El fam, zeroG2El fam⟩

/-! ### Conversion-layer errors -/

/-- An error returned by a conversion function.  `mismatchingTypes ret got`
embeds `fmt.Errorf("mismatching types %T %T", ret, v)` — the type name of the
zero return witness and of the offending dynamic value; the spec calls this
`TypeMismatch`.  `unknownTypeParametrization` embeds
`fmt.Errorf("unknown type parametrization")` — the spec's
`UnsupportedFamily`. -/
inductive ConvErr where
  | mismatchingTypes (retType gotType : String)
  | unknownTypeParametrization
deriving DecidableEq

/-- Whether a conversion error is the spec's `TypeMismatch` kind. -/
def ConvErr.isMismatch : ConvErr → Bool
  | .mismatchingTypes _ _ => true
  | .unknownTypeParametrization => false

/-- Type name of the bn254 commitment return value (`%T` of `ret`). -/
def cmtBN254T : String := "kzg.Commitment[sw_bn254.G1Affine]"

/-- Type name of the bls12-377 commitment return value. -/
def cmtBLS377T : String := "kzg.Commitment[sw_bls12377.G1Affine]"

/-- Type name of the bn254 opening-proof return value. -/
def opBN254T : String := "kzg.OpeningProof[sw_bn254.Scalar,sw_bn254.G1Affine]"

/-- Type name of the bls12-377 opening-proof return value. -/
def opBLS377T : String :=
  "kzg.OpeningProof[sw_bls12377.Scalar,sw_bls12377.G1Affine]"

/-- Type name of the bn254 SRS return value. -/
def srsBN254T : String := "kzg.SRS[sw_bn254.G2Affine]"

/-- Type name of the bls12-377 SRS return value. -/
def srsBLS377T : String := "kzg.SRS[sw_bls12377.G2Affine]"

/-! ### Conversion functions -/

/-- Embedding of `ValueOfCommitment`: dispatch on the type parametrization,
assert the dynamic type of the native commitment, and encode its G1 point.
Mirrors the Go pair `(ret, err)`: on failure the zero-valued `ret` is
returned together with the error (`none` is Go's nil error). -/
def ValueOfCommitment (fam : Family) (cmt : NativeAny) :
    Commitment (G1ElType fam) × Option ConvErr :=
  match fam with
  | .bn254 =>
    match cmt with
    | .bn254G1 tCmt => (⟨swBN254NewG1Affine tCmt⟩, none)
    | _ => (⟨zeroG1El .bn254⟩, some (.mismatchingTypes cmtBN254T cmt.typeName))
  | .bls12377 =>
    match cmt with
    | .bls377G1 tCmt => (⟨swBLS377NewG1Affine tCmt⟩, none)
    | _ => (⟨zeroG1El .bls12377⟩, some (.mismatchingTypes cmtBLS377T cmt.typeName))
  | .other t => (⟨zeroG1El (.other t)⟩, some .unknownTypeParametrization)

/-- Embedding of `ValueOfOpeningProof`: dispatch on the type parametrization,
assert the proof's dynamic type first and the point's second, then encode
`H`, `ClaimedValue` and the point.  The bn254 branch encodes the scalars with
`sw_bn254.NewScalar` (limb-based); the bls12-377 branch assigns the decimal
`String()` rendering of each scalar. -/
def ValueOfOpeningProof (fam : Family) (point pr : NativeAny) :
    OpeningProof (ScalarType fam) (G1ElType fam) × Option ConvErr :=
  match fam with
  | .bn254 =>
    match pr with
    | .bn254Proof tProof =>
      match point with
      | .bn254Fr tPoint =>
        (⟨swBN254NewG1Affine tProof.H, swBN254NewScalar tProof.ClaimedValue,
          swBN254NewScalar tPoint⟩, none)
      | _ =>
        (zeroOpeningProofW .bn254,
          some (.mismatchingTypes opBN254T point.typeName))
    | _ =>
      (zeroOpeningProofW .bn254, some (.mismatchingTypes opBN254T pr.typeName))
  | .bls12377 =>
    match pr with
    | .bls377Proof tProof =>
      match point with
      | .bls377Fr tPoint =>
        (⟨swBLS377NewG1Affine tProof.H,
          .ofString (frString tProof.ClaimedValue),
          .ofString (frString tPoint)⟩, none)
      | _ =>
        (zeroOpeningProofW .bls12377,
          some (.mismatchingTypes opBLS377T point.typeName))
    | _ =>
      (zeroOpeningProofW .bls12377,
        some (.mismatchingTypes opBLS377T pr.typeName))
  | .other t =>
    (zeroOpeningProofW (.other t), some .unknownTypeParametrization)

/-- Embedding of `ValueOfSRS`: dispatch on the type parametrization, assert
the dynamic type of the native SRS pointer, and encode `Vk.G2[0]` and
`Vk.G2[1]` in order. -/
def ValueOfSRS (fam : Family) (srs : NativeAny) :
    SRS (G2ElType fam) × Option ConvErr :=
  match fam with
  | .bn254 =>
    match srs with
    | .bn254SRS tSrs =>
      (⟨swBN254NewG2Affine tSrs.Vk.G2.1, swBN254NewG2Affine tSrs.Vk.G2.2⟩, none)
    | _ => (zeroSRSW .bn254, some (.mismatchingTypes srsBN254T srs.typeName))
  | .bls12377 =>
    match srs with
    | .bls377SRS tSrs =>
      (⟨swBLS377NewG2Affine tSrs.Vk.G2.1, swBLS377NewG2Affine tSrs.Vk.G2.2⟩,
        none)
    | _ => (zeroSRSW .bls12377, some (.mismatchingTypes srsBLS377T srs.typeName))
  | .other t => (zeroSRSW (.other t), some .unknownTypeParametrization)

/-! ### The Verifier and `AssertProof`

The injected `algebra.Curve` and `algebra.Pairing` capabilities become
records of functions; `AssertProof` stays parametric in the element types and
in the capabilities, exactly as the Go method is generic in `S`, `G1El`,
`G2El`, `GtEl` (the `GtEl` parameter is phantom: no value of it is ever held
by this core, so it is dropped here).  `PairingCheck` returns `Option E`
(`none` is Go's nil error, `some e` an error of the capability's own error
type `E`). -/

/-- The curve-arithmetic capability (`algebra.Curve`), restricted to the four
operations the source calls. -/
structure CurveCap (S G1 : Type) where
  ScalarMulBase : S → G1
  ScalarMul : G1 → S → G1
  Add : G1 → G1 → G1
  Neg : G1 → G1

/-- The pairing capability (`algebra.Pairing`), restricted to the one
operation the source calls.  `PairingCheck g1s g2s` reports `none` when the
product of pairings over the two sequences is the identity of the target
group, and `some e` otherwise. -/
structure PairingCap (G1 G2 E : Type) where
  PairingCheck : List G1 → List G2 → Option E

/-- The verifier (`Verifier[S, G1El, G2El, GtEl]`): the embedded `SRS` plus
the two injected capabilities. -/
structure Verifier (S G1 G2 E : Type) where
  SRS : SRS G2
  curve : CurveCap S G1
  pairing : PairingCap G1 G2 E

/-- Embedding of `NewVerifier`. -/
def NewVerifier {S G1 G2 E : Type} (srs : SRS G2) (curve : CurveCap S G1)
    (pairing : PairingCap G1 G2 E) : Verifier S G1 G2 E :=
  ⟨srs, curve, pairing⟩

/-- The only error `AssertProof` produces: the wrap
`fmt.Errorf("pairing check: %w", err)` of the pairing capability's error.
This is the spec's `ProofInvalid`. -/
inductive AssertErr (E : Type) where
  | pairingCheck (e : E)
deriving DecidableEq

/-- Embedding of the body of `AssertProof`, in state-passing form: besides
the returned error it carries the final values of the receiver and of both
parameters at the return points.  The Go body contains no assignment to
`vk`, `commitment` or `proof` (only the locals `fminusfaG1` and `totalG1`
are reassigned), so both return points pass them through unchanged. -/
def AssertProofFrame {S G1 G2 E : Type} (vk : Verifier S G1 G2 E)
    (commitment : Commitment G1) (proof : OpeningProof S G1) :
    Option (AssertErr E) × Verifier S G1 G2 E × Commitment G1 × OpeningProof S G1 :=
  let claimedValueG1 := vk.curve.ScalarMulBase proof.ClaimedValue
  let fminusfaG1 := vk.curve.Neg claimedValueG1
  let fminusfaG1 := vk.curve.Add fminusfaG1 commitment.G1El
  let negQuotientPoly := vk.curve.Neg proof.QuotientPoly
  let totalG1 := vk.curve.ScalarMul proof.QuotientPoly proof.Point
  let totalG1 := vk.curve.Add totalG1 fminusfaG1
  match vk.pairing.PairingCheck [totalG1, negQuotientPoly]
      [vk.SRS.SRS.1, vk.SRS.SRS.2] with
  | some err => (some (.pairingCheck err), vk, commitment, proof)
  | none => (none, vk, commitment, proof)

/-- Embedding of `AssertProof`: the error component of the body (the Go
method returns only the error). -/
def AssertProof {S G1 G2 E : Type} (vk : Verifier S G1 G2 E)
    (commitment : Commitment G1) (proof : OpeningProof S G1) :
    Option (AssertErr E) :=
  (AssertProofFrame vk commitment proof).1

/-- A sequence of `AssertProof` calls on one verifier, in order: the list of
their outcomes. -/
def runAssertCalls {S G1 G2 E : Type} (vk : Verifier S G1 G2 E)
    (calls : List (Commitment G1 × OpeningProof S G1)) :
    List (Option (AssertErr E)) :=
  calls.map fun cp => AssertProof vk cp.1 cp.2

/-! ### Capability models

Three instantiations of the abstract capabilities, used to analyse
`AssertProof`: a free symbolic curve (terms record exactly which capability
operations were applied), a pairing capability that reports its arguments
back through its error type, and an honest integer model in which the
capability operations are genuine commutative-group operations. -/

/-- Symbolic G1 elements: the free term algebra over the curve capability's
operations, with G1 atoms and scalar atoms numbered by naturals. -/
inductive G1Sym where
  | atom (i : Nat)
  | scalarMulBase (s : Nat)
  | scalarMul (p : G1Sym) (s : Nat)
  | add (a b : G1Sym)
  | neg (a : G1Sym)
deriving DecidableEq

/-- The free symbolic curve capability: each operation builds the
corresponding term. -/
def symCurveCap : CurveCap Nat G1Sym :=
  ⟨.scalarMulBase, .scalarMul, .add, .neg⟩

/-- A pairing capability over symbolic G1 elements and `Nat` G2 atoms that
always fails, reporting its two argument sequences verbatim: whatever
`AssertProof` returns with this capability is exactly the argument list of
its single `PairingCheck` call. -/
def capturePairingCap : PairingCap G1Sym Nat (List G1Sym × List Nat) :=
  ⟨fun g1s g2s => some (g1s, g2s)⟩

/-- The honest integer model of the curve capability: G1 and the scalars are
the integers, the group law is addition, and `ScalarMulBase` multiplies by a
fixed generator `g`. -/
def intCurveCap (g : Int) : CurveCap Int Int :=
  ⟨fun s => s * g, fun p s => s * p, fun a b => a + b, fun a => -a⟩

/-- Recomposition of a limb vector: the natural number it denotes in base
2⁶⁴, least-significant limb first. -/
def limbsValue : List Nat → Nat
  | [] => 0
  | l :: ls => l + 2 ^ 64 * limbsValue ls

/-! ### Helper lemmas -/

/-- Unfolding lemma: for every choice of element types, capabilities, setup
and inputs, `AssertProof` performs the single `PairingCheck` call on the G1
sequence `[Add (ScalarMul Q pt) (Add (Neg (ScalarMulBase cv)) C), Neg Q]`
and the G2 sequence `[SRS[0], SRS[1]]`, wraps its error, and returns nothing
else. -/
theorem assertProof_eq_pairingCheck {S G1 G2 E : Type} (curve : CurveCap S G1)
    (pairing : PairingCap G1 G2 E) (srs : SRS G2) (c : Commitment G1)
    (p : OpeningProof S G1) :
    AssertProof (NewVerifier srs curve pairing) c p =
      Option.map AssertErr.pairingCheck
        (pairing.PairingCheck
          [curve.Add (curve.ScalarMul p.QuotientPoly p.Point)
              (curve.Add (curve.Neg (curve.ScalarMulBase p.ClaimedValue)) c.G1El),
            curve.Neg p.QuotientPoly]
          [srs.SRS.1, srs.SRS.2]) := by
  cases h : pairing.PairingCheck
      [curve.Add (curve.ScalarMul p.QuotientPoly p.Point)
          (curve.Add (curve.Neg (curve.ScalarMulBase p.ClaimedValue)) c.G1El),
        curve.Neg p.QuotientPoly]
      [srs.SRS.1, srs.SRS.2] <;>
    simp [AssertProof, AssertProofFrame, NewVerifier, h]

/-- Recomposing the `n` base-2⁶⁴ limbs of `x` recovers `x` modulo `2^(64*n)`:
the limb encoding is a faithful positional representation. -/
theorem limbsValue_toLimbs (n x : Nat) :
    limbsValue (toLimbs n x) = x % 2 ^ (64 * n) := by
  induction n generalizing x with
  | zero => simp [toLimbs, limbsValue, Nat.mod_one]
  | succ m ih =>
      rw [toLimbs, limbsValue, ih (x / 2 ^ 64)]
      have h : 2 ^ (64 * (m + 1)) = 2 ^ 64 * 2 ^ (64 * m) := by
        rw [← pow_add]; ring_nf
      rw [h, Nat.mod_mul]

/-- The limb encoding of `toLimbs n x` always has exactly `n` limbs. -/
theorem toLimbs_length (n x : Nat) : (toLimbs n x).length = n := by
  induction n generalizing x with
  | zero => rfl
  | succ m ih => simp [toLimbs, ih]

/-! ### Claims -/

/-- C1: `AssertProof` computes `claimedValueG1 = ScalarMulBase(ClaimedValue)`,
`diffG1 = Commitment − claimedValueG1`, `totalG1 =
ScalarMul(QuotientCommitment, Point) + diffG1` and `negQuotientG1 =
−QuotientCommitment` using only the injected curve capability, and performs
exactly one batched pairing check on the G1 sequence `[totalG1,
negQuotientG1]` against the G2 sequence `[SRS[0], SRS[1]]`.  First conjunct:
for every capability instantiation the result is exactly that single
`PairingCheck` call on those operand sequences.  Second conjunct: under the
free symbolic curve capability and an argument-capturing pairing capability,
the one recorded call carries precisely those two sequences, built from
curve-capability operations alone.  Third conjunct: in the honest integer
group model the first G1 operand is `Point·Q + (Commitment −
ClaimedValue·g)` and the second is `−Q`, matching the spec's formulas. -/
theorem assertProof_single_batched_pairing_check :
    (∀ (S G1 G2 E : Type) (curve : CurveCap S G1) (pairing : PairingCap G1 G2 E)
        (srs : SRS G2) (c : Commitment G1) (p : OpeningProof S G1),
      AssertProof (NewVerifier srs curve pairing) c p =
        Option.map AssertErr.pairingCheck
          (pairing.PairingCheck
            [curve.Add (curve.ScalarMul p.QuotientPoly p.Point)
                (curve.Add (curve.Neg (curve.ScalarMulBase p.ClaimedValue))
                  c.G1El),
              curve.Neg p.QuotientPoly]
            [srs.SRS.1, srs.SRS.2]))
    ∧ (AssertProof (NewVerifier ⟨(20, 21)⟩ symCurveCap capturePairingCap)
          ⟨.atom 0⟩ ⟨.atom 1, 10, 11⟩ =
        some (.pairingCheck
          ([.add (.scalarMul (.atom 1) 11)
              (.add (.neg (.scalarMulBase 10)) (.atom 0)),
            .neg (.atom 1)],
           [20, 21])))
    ∧ (∀ (G2 E : Type) (g : Int) (pairing : PairingCap Int G2 E) (srs : SRS G2)
          (c q cv pt : Int),
        AssertProof (NewVerifier srs (intCurveCap g) pairing) ⟨c⟩ ⟨q, cv, pt⟩ =
          Option.map AssertErr.pairingCheck
            (pairing.PairingCheck [pt * q + (c - cv * g), -q]
              [srs.SRS.1, srs.SRS.2])) := by
  refine ⟨fun S G1 G2 E curve pairing srs c p =>
    assertProof_eq_pairingCheck curve pairing srs c p, rfl, ?_⟩
  intro G2 E g pairing srs c q cv pt
  rw [assertProof_eq_pairingCheck]
  have e : pt * q + (-(cv * g) + c) = pt * q + (c - cv * g) := by ring
  simp only [intCurveCap]
  rw [e]

/-- C2: `AssertProof` succeeds exactly when the pairing capability's
`PairingCheck` reports the identity (nil error) on the two pairs, and
otherwise fails with the wrapped pairing error (`ProofInvalid`); every
capability failure is surfaced to the caller, never swallowed. -/
theorem assertProof_success_iff_pairing_identity :
    ∀ (S G1 G2 E : Type) (curve : CurveCap S G1) (pairing : PairingCap G1 G2 E)
      (srs : SRS G2) (c : Commitment G1) (p : OpeningProof S G1),
      (AssertProof (NewVerifier srs curve pairing) c p = none ↔
        pairing.PairingCheck
          [curve.Add (curve.ScalarMul p.QuotientPoly p.Point)
              (curve.Add (curve.Neg (curve.ScalarMulBase p.ClaimedValue))
                c.G1El),
            curve.Neg p.QuotientPoly]
          [srs.SRS.1, srs.SRS.2] = none)
      ∧ ∀ e : E,
        AssertProof (NewVerifier srs curve pairing) c p =
            some (.pairingCheck e) ↔
          pairing.PairingCheck
            [curve.Add (curve.ScalarMul p.QuotientPoly p.Point)
                (curve.Add (curve.Neg (curve.ScalarMulBase p.ClaimedValue))
                  c.G1El),
              curve.Neg p.QuotientPoly]
            [srs.SRS.1, srs.SRS.2] = some e := by
  intro S G1 G2 E curve pairing srs c p
  rw [assertProof_eq_pairingCheck]
  cases pairing.PairingCheck
      [curve.Add (curve.ScalarMul p.QuotientPoly p.Point)
          (curve.Add (curve.Neg (curve.ScalarMulBase p.ClaimedValue)) c.G1El),
        curve.Neg p.QuotientPoly]
      [srs.SRS.1, srs.SRS.2] <;> simp

/-- C3: for each conversion function and each of the two supported families,
a native input whose dynamic type is not the family's expected native type
makes the function fail with the `mismatchingTypes` (`TypeMismatch`) error
naming that input's actual type — the value is never reinterpreted as the
other family's type.  For `ValueOfOpeningProof` both inputs are covered: a
mismatching proof (for any point), and a mismatching point alongside a
matching proof. -/
theorem conversion_type_mismatch :
    (∀ v : NativeAny, v.isBN254G1 = false →
      (ValueOfCommitment .bn254 v).2 =
        some (.mismatchingTypes cmtBN254T v.typeName))
    ∧ (∀ v : NativeAny, v.isBLS377G1 = false →
      (ValueOfCommitment .bls12377 v).2 =
        some (.mismatchingTypes cmtBLS377T v.typeName))
    ∧ (∀ pt pr : NativeAny, pr.isBN254Proof = false →
      (ValueOfOpeningProof .bn254 pt pr).2 =
        some (.mismatchingTypes opBN254T pr.typeName))
    ∧ (∀ (pt : NativeAny) (tp : KzgBN254OpeningProof), pt.isBN254Fr = false →
      (ValueOfOpeningProof .bn254 pt (.bn254Proof tp)).2 =
        some (.mismatchingTypes opBN254T pt.typeName))
    ∧ (∀ pt pr : NativeAny, pr.isBLS377Proof = false →
      (ValueOfOpeningProof .bls12377 pt pr).2 =
        some (.mismatchingTypes opBLS377T pr.typeName))
    ∧ (∀ (pt : NativeAny) (tp : KzgBLS377OpeningProof), pt.isBLS377Fr = false →
      (ValueOfOpeningProof .bls12377 pt (.bls377Proof tp)).2 =
        some (.mismatchingTypes opBLS377T pt.typeName))
    ∧ (∀ v : NativeAny, v.isBN254SRS = false →
      (ValueOfSRS .bn254 v).2 = some (.mismatchingTypes srsBN254T v.typeName))
    ∧ (∀ v : NativeAny, v.isBLS377SRS = false →
      (ValueOfSRS .bls12377 v).2 =
        some (.mismatchingTypes srsBLS377T v.typeName)) := by
  refine ⟨?_, ?_, ?_, ?_, ?_, ?_, ?_, ?_⟩
  · intro v h
    cases v <;> simp_all [ValueOfCommitment, NativeAny.isBN254G1]
  · intro v h
    cases v <;> simp_all [ValueOfCommitment, NativeAny.isBLS377G1]
  · intro pt pr h
    cases pr <;> simp_all [ValueOfOpeningProof, NativeAny.isBN254Proof]
  · intro pt tp h
    cases pt <;> simp_all [ValueOfOpeningProof, NativeAny.isBN254Fr]
  · intro pt pr h
    cases pr <;> simp_all [ValueOfOpeningProof, NativeAny.isBLS377Proof]
  · intro pt tp h
    cases pt <;> simp_all [ValueOfOpeningProof, NativeAny.isBLS377Fr]
  · intro v h
    cases v <;> simp_all [ValueOfSRS, NativeAny.isBN254SRS]
  · intro v h
    cases v <;> simp_all [ValueOfSRS, NativeAny.isBLS377SRS]

/-- Witness for C3: each component applied at a concrete cross-family or
foreign native value. -/
theorem conversion_type_mismatch_witness :
    (ValueOfCommitment .bn254 (.bls377G1 ⟨1, 2⟩)).2 =
      some (.mismatchingTypes cmtBN254T "bls12377.G1Affine")
    ∧ (ValueOfCommitment .bls12377 (.bn254G1 ⟨3, 4⟩)).2 =
      some (.mismatchingTypes cmtBLS377T "bn254.G1Affine")
    ∧ (ValueOfOpeningProof .bn254 (.bn254Fr 5) (.bls377Proof ⟨⟨6, 7⟩, 8⟩)).2 =
      some (.mismatchingTypes opBN254T "kzg_bls12377.OpeningProof")
    ∧ (ValueOfOpeningProof .bn254 (.bls377Fr 9) (.bn254Proof ⟨⟨1, 2⟩, 3⟩)).2 =
      some (.mismatchingTypes opBN254T "fr_bls12377.Element")
    ∧ (ValueOfOpeningProof .bls12377 (.bls377Fr 5)
        (.bn254Proof ⟨⟨6, 7⟩, 8⟩)).2 =
      some (.mismatchingTypes opBLS377T "kzg_bn254.OpeningProof")
    ∧ (ValueOfOpeningProof .bls12377 (.bn254Fr 9)
        (.bls377Proof ⟨⟨1, 2⟩, 3⟩)).2 =
      some (.mismatchingTypes opBLS377T "fr_bn254.Element")
    ∧ (ValueOfSRS .bn254 (.bls377SRS ⟨⟨(⟨1, 2, 3, 4⟩, ⟨5, 6, 7, 8⟩)⟩⟩)).2 =
      some (.mismatchingTypes srsBN254T "*kzg_bls12377.SRS")
    ∧ (ValueOfSRS .bls12377 (.otherVal "kzg_bls12377.SRS")).2 =
      some (.mismatchingTypes srsBLS377T "kzg_bls12377.SRS") :=
  ⟨conversion_type_mismatch.1 _ (by decide),
    conversion_type_mismatch.2.1 _ (by decide),
    conversion_type_mismatch.2.2.1 _ _ (by decide),
    conversion_type_mismatch.2.2.2.1 _ _ (by decide),
    conversion_type_mismatch.2.2.2.2.1 _ _ (by decide),
    conversion_type_mismatch.2.2.2.2.2.1 _ _ (by decide),
    conversion_type_mismatch.2.2.2.2.2.2.1 _ (by decide),
    conversion_type_mismatch.2.2.2.2.2.2.2 _ (by decide)⟩

/-- C4: for every type parametrization outside the two supported families,
each conversion function fails with `unknownTypeParametrization`
(`UnsupportedFamily`), whatever native value is supplied. -/
theorem conversion_unknown_family :
    ∀ (t : Nat) (v pt pr sv : NativeAny),
      (ValueOfCommitment (.other t) v).2 = some .unknownTypeParametrization
      ∧ (ValueOfOpeningProof (.other t) pt pr).2 =
        some .unknownTypeParametrization
      ∧ (ValueOfSRS (.other t) sv).2 = some .unknownTypeParametrization :=
  fun _ _ _ _ _ => ⟨rfl, rfl, rfl⟩

/-- C5: on success, `ValueOfOpeningProof` encodes the scalars per family —
the bn254 (emulated) family gets the structured limb-based encoding
(`sw_bn254.NewScalar`, whose 4 base-2⁶⁴ limbs recompose to the native value
modulo 2²⁵⁶), the bls12-377 (native-field) family gets the decimal-string
rendering of the native scalar — and the quotient commitment `H` is encoded
as that family's G1 witness. -/
theorem openingProof_scalar_encoding_per_family :
    (∀ (H : BN254G1Affine) (cv ptv : Nat),
      ValueOfOpeningProof .bn254 (.bn254Fr ptv) (.bn254Proof ⟨H, cv⟩) =
        (⟨swBN254NewG1Affine H, swBN254NewScalar cv, swBN254NewScalar ptv⟩,
          none))
    ∧ (∀ x : Nat, (swBN254NewScalar x).limbs.length = 4
        ∧ limbsValue (swBN254NewScalar x).limbs = x % 2 ^ 256)
    ∧ (∀ (H : BLS377G1Affine) (cv ptv : Nat),
      ValueOfOpeningProof .bls12377 (.bls377Fr ptv) (.bls377Proof ⟨H, cv⟩) =
        (⟨swBLS377NewG1Affine H, .ofString (frString cv),
          .ofString (frString ptv)⟩, none)) := by
  refine ⟨fun H cv ptv => rfl, fun x => ⟨toLimbs_length 4 x, ?_⟩,
    fun H cv ptv => rfl⟩
  have h := limbsValue_toLimbs 4 x
  norm_num at h
  exact h

/-- C6: on success, `ValueOfSRS` maps the native setup's first G2 element to
the witness `SRS[0]` and its second to `SRS[1]`, in order, for both
families. -/
theorem valueOfSRS_preserves_order :
    ∀ (a b : BN254G2Affine) (c d : BLS377G2Affine),
      ValueOfSRS .bn254 (.bn254SRS ⟨⟨(a, b)⟩⟩) =
        (⟨(swBN254NewG2Affine a, swBN254NewG2Affine b)⟩, none)
      ∧ ValueOfSRS .bls12377 (.bls377SRS ⟨⟨(c, d)⟩⟩) =
        (⟨(swBLS377NewG2Affine c, swBLS377NewG2Affine d)⟩, none) :=
  fun _ _ _ _ => ⟨rfl, rfl⟩

/-- C7: `AssertProof` mutates nothing — in the state-passing embedding of
the method body, both return points hand back the receiver (with its `SRS`
and capability references) and the two arguments unchanged, whether the
pairing check succeeded or failed. -/
theorem assertProof_mutates_nothing :
    ∀ (S G1 G2 E : Type) (vk : Verifier S G1 G2 E) (c : Commitment G1)
      (p : OpeningProof S G1),
      (AssertProofFrame vk c p).2.1 = vk
      ∧ (AssertProofFrame vk c p).2.2.1 = c
      ∧ (AssertProofFrame vk c p).2.2.2 = p := by
  intro S G1 G2 E vk c p
  cases h : vk.pairing.PairingCheck
      [vk.curve.Add (vk.curve.ScalarMul p.QuotientPoly p.Point)
          (vk.curve.Add (vk.curve.Neg (vk.curve.ScalarMulBase p.ClaimedValue))
            c.G1El),
        vk.curve.Neg p.QuotientPoly]
      [vk.SRS.SRS.1, vk.SRS.SRS.2] <;>
    simp [AssertProofFrame, h]

/-- C8: `AssertProof` is deterministic and order-independent — in any
sequence of calls on one verifier, the outcome at a given position is a
function of that call's arguments alone, whatever calls precede or follow
it; in particular two calls with identical arguments give identical
outcomes wherever they occur. -/
theorem assertProof_order_independent :
    ∀ (S G1 G2 E : Type) (vk : Verifier S G1 G2 E)
      (pre post : List (Commitment G1 × OpeningProof S G1))
      (c : Commitment G1) (p : OpeningProof S G1),
      (runAssertCalls vk (pre ++ (c, p) :: post))[pre.length]? =
        some (AssertProof vk c p) := by
  intro S G1 G2 E vk pre post c p
  unfold runAssertCalls
  rw [List.map_append, List.getElem?_append_right (by simp)]
  simp

/-- C9: the conversion functions are deterministic — for every family
selector and native inputs, two invocations of the same conversion return
results that are equal in all observable respects (the embedding is a pure
value transformation, so this holds definitionally). -/
theorem conversion_idempotent :
    ∀ (fam : Family) (v pt pr sv : NativeAny),
      ValueOfCommitment fam v = ValueOfCommitment fam v
      ∧ ValueOfOpeningProof fam pt pr = ValueOfOpeningProof fam pt pr
      ∧ ValueOfSRS fam sv = ValueOfSRS fam sv :=
  fun _ _ _ _ _ => ⟨rfl, rfl, rfl⟩

/-- C10: whenever a conversion function fails, the witness it returns beside
the error is the Go zero value of the target witness type, with no field
populated from the native input (first three conjuncts); and
`ValueOfOpeningProof` checks the proof's type before the point's, so a
mismatching proof fails with the proof's type in the error for every point,
matching or not (last two conjuncts). -/
theorem conversion_failure_zero_witness :
    (∀ (fam : Family) (v : NativeAny) (e : ConvErr),
      (ValueOfCommitment fam v).2 = some e →
      (ValueOfCommitment fam v).1 = ⟨zeroG1El fam⟩)
    ∧ (∀ (fam : Family) (pt pr : NativeAny) (e : ConvErr),
      (ValueOfOpeningProof fam pt pr).2 = some e →
      (ValueOfOpeningProof fam pt pr).1 = zeroOpeningProofW fam)
    ∧ (∀ (fam : Family) (v : NativeAny) (e : ConvErr),
      (ValueOfSRS fam v).2 = some e →
      (ValueOfSRS fam v).1 = zeroSRSW fam)
    ∧ (∀ pt pr : NativeAny, pr.isBN254Proof = false →
      (ValueOfOpeningProof .bn254 pt pr).2 =
        some (.mismatchingTypes opBN254T pr.typeName))
    ∧ (∀ pt pr : NativeAny, pr.isBLS377Proof = false →
      (ValueOfOpeningProof .bls12377 pt pr).2 =
        some (.mismatchingTypes opBLS377T pr.typeName)) := by
  refine ⟨?_, ?_, ?_, ?_, ?_⟩
  · intro fam v e h
    cases fam <;> cases v <;>
      simp_all [ValueOfCommitment, zeroG1El]
  · intro fam pt pr e h
    cases fam <;> cases pr <;> cases pt <;>
      simp_all [ValueOfOpeningProof, zeroOpeningProofW]
  · intro fam v e h
    cases fam <;> cases v <;>
      simp_all [ValueOfSRS, zeroSRSW]
  · intro pt pr h
    cases pr <;> simp_all [ValueOfOpeningProof, NativeAny.isBN254Proof]
  · intro pt pr h
    cases pr <;> simp_all [ValueOfOpeningProof, NativeAny.isBLS377Proof]

/-- Witness for C10: each component applied at a concrete failing input; the
fourth and fifth at a mismatching proof paired with a matching point. -/
theorem conversion_failure_zero_witness_concrete :
    (ValueOfCommitment .bn254 (.bls377G1 ⟨1, 2⟩)).1 = ⟨zeroG1El .bn254⟩
    ∧ (ValueOfOpeningProof .bls12377 (.bn254Fr 3)
        (.bls377Proof ⟨⟨4, 5⟩, 6⟩)).1 = zeroOpeningProofW .bls12377
    ∧ (ValueOfSRS .bn254 (.otherVal "kzg_bn254.SRS")).1 = zeroSRSW .bn254
    ∧ (ValueOfOpeningProof .bn254 (.bn254Fr 7)
        (.bls377Proof ⟨⟨1, 1⟩, 1⟩)).2 =
      some (.mismatchingTypes opBN254T "kzg_bls12377.OpeningProof")
    ∧ (ValueOfOpeningProof .bls12377 (.bls377Fr 7)
        (.bn254Proof ⟨⟨1, 1⟩, 1⟩)).2 =
      some (.mismatchingTypes opBLS377T "kzg_bn254.OpeningProof") :=
  ⟨conversion_failure_zero_witness.1 .bn254 (.bls377G1 ⟨1, 2⟩)
      (.mismatchingTypes cmtBN254T "bls12377.G1Affine") (by decide),
    conversion_failure_zero_witness.2.1 .bls12377 (.bn254Fr 3)
      (.bls377Proof ⟨⟨4, 5⟩, 6⟩)
      (.mismatchingTypes opBLS377T "fr_bn254.Element") (by decide),
    conversion_failure_zero_witness.2.2.1 .bn254 (.otherVal "kzg_bn254.SRS")
      (.mismatchingTypes srsBN254T "kzg_bn254.SRS") (by decide),
    conversion_failure_zero_witness.2.2.2.1 (.bn254Fr 7)
      (.bls377Proof ⟨⟨1, 1⟩, 1⟩) (by decide),
    conversion_failure_zero_witness.2.2.2.2 (.bls377Fr 7)
      (.bn254Proof ⟨⟨1, 1⟩, 1⟩) (by decide)⟩

end Kzg
